import Mathlib

/-!
Verification development for the okta-create-user action scripts.

The JavaScript sources are shallowly embedded. JS strings are Lean strings
(wrapping lists of characters), JSON data is an inductive of association
lists and scalars, and runtime facilities external to the repository
(JSON.parse, btoa, encodeURIComponent, the network) are oracles passed in
explicitly. Every fetch the scripts perform is recorded in a trace of
HTTP calls, so that statements about which calls are or are not issued can
be made precise.
-/

namespace OktaVerify

/-- JSON-like values as delivered by response.json() and JSON.parse, and as
assembled by the scripts. JS object property lists are association lists in
insertion order. -/
inductive JValue where
  | null
  | undefined
  | bool (b : Bool)
  | num (n : Int)
  | str (s : String)
  | obj (fields : List (String × JValue))

/-- Property read obj.key in JS: the first binding of the key, undefined
when the key is missing or the value is not an object. -/
def jsLookup (v : JValue) (key : String) : JValue :=
  match v with
  | .obj fields =>
    match fields.find? (fun p => p.1 == key) with
    | some p => p.2
    | none => .undefined
  | _ => .undefined

/-- The String(...) coercion of JS applied to a JSON-like value. -/
def jsString : JValue → String
  | .null => "null"
  | .undefined => "undefined"
  | .bool b => if b then "true" else "false"
  | .num n => toString n
  | .str s => s
  | .obj _ => "[object Object]"

/-- JS truthiness of a JSON-like value. -/
def jsTruthyJ : JValue → Bool
  | .null => false
  | .undefined => false
  | .bool b => b
  | .num n => n != 0
  | .str s => s != ""
  | .obj _ => true

/-- JS truthiness of an optional string parameter: absent, null, undefined
and the empty string are falsy; every other string is truthy. -/
def jsTruthy : Option String → Bool
  | none => false
  | some s => s != ""

/-- A possibly-absent string parameter as the JS value it denotes. -/
def optToJValue : Option String → JValue
  | none => .undefined
  | some s => .str s

/-- Whitespace recognized by String.prototype.trim (ASCII portion). -/
def jsWhitespaceChar (c : Char) : Bool :=
  c == ' ' || c == '\t' || c == '\n' || c == '\r' || c == '\x0b' || c == '\x0c'

/-- Leading and trailing whitespace removal on character lists. -/
def trimChars (l : List Char) : List Char :=
  ((l.dropWhile jsWhitespaceChar).reverse.dropWhile jsWhitespaceChar).reverse

/-- Embedding of String.prototype.trim. -/
def jsTrim (s : String) : String := ⟨trimChars s.data⟩

/-- Embedding of String.prototype.toLowerCase (ASCII portion). -/
def jsToLower (s : String) : String := ⟨s.data.map Char.toLower⟩

/-- Embedding of String.prototype.split with separator a comma. -/
def splitCommaChars : List Char → List (List Char)
  | [] => [[]]
  | c :: cs =>
    if c = ',' then [] :: splitCommaChars cs
    else
      match splitCommaChars cs with
      | [] => [[c]]
      | t :: ts => (c :: t) :: ts

/-- String-level comma split, as groupIds.split(",") in the scripts. -/
def jsSplitComma (s : String) : List String := (splitCommaChars s.data).map fun l => ⟨l⟩

/-- Embedding of Array.prototype.join with separator a comma, list level. -/
def joinCommaChars : List (List Char) → List Char
  | [] => []
  | [t] => t
  | t :: t' :: ts => t ++ ',' :: joinCommaChars (t' :: ts)

/-- String-level comma join. -/
def jsJoinComma (xs : List String) : String := ⟨joinCommaChars (xs.map String.data)⟩

/-- Boolean prefix test on character lists. -/
def listStartsWith : List Char → List Char → Bool
  | _, [] => true
  | [], _ :: _ => false
  | c :: cs, p :: ps => c == p && listStartsWith cs ps

/-- Embedding of String.prototype.startsWith. -/
def jsStartsWith (s p : String) : Bool := listStartsWith s.data p.data

/-- Embedding of String.prototype.endsWith. -/
def jsEndsWith (s p : String) : Bool := listStartsWith s.data.reverse p.data.reverse

/-- Embedding of str.slice(0, -1): drop the final character. -/
def jsDropLastChar (s : String) : String := ⟨s.data.dropLast⟩

/-- Embedding of str.substring(n): drop the first n characters. -/
def jsSubstringFrom (s : String) (n : Nat) : String := ⟨s.data.drop n⟩

/-- Property write target.key = v in JS: overwrite the binding in place
when the key exists, append a new binding otherwise. -/
def jsInsert (fields : List (String × JValue)) (k : String) (v : JValue) :
    List (String × JValue) :=
  if fields.any (fun p => p.1 == k) then
    fields.map (fun p => if p.1 == k then (p.1, v) else p)
  else fields ++ [(k, v)]

/-- Object.assign(target, source) restricted to the bindings of an object
source: bindings are written left to right, so a later binding of a key
wins. -/
def jsAssignFields (target : List (String × JValue))
    (source : List (String × JValue)) : List (String × JValue) :=
  source.foldl (fun acc kv => jsInsert acc kv.1 kv.2) target

/-- Object.assign(target, source) on a parsed JSON value: objects
contribute their bindings, strings contribute their indexed characters,
and the remaining scalars contribute nothing. -/
def objectAssign (target : List (String × JValue)) (source : JValue) :
    List (String × JValue) :=
  match source with
  | .obj fs => jsAssignFields target fs
  | .str s =>
    jsAssignFields target
      (s.data.enum.map fun ic => (toString ic.1, JValue.str ⟨[ic.2]⟩))
  | _ => target

/-- Lookup in a raw binding list, first binding wins (JS read order). -/
def fieldsLookup (fields : List (String × JValue)) (k : String) : Option JValue :=
  match fields.find? (fun p => p.1 == k) with
  | some p => some p.2
  | none => none

/-- Whether a binding list carries a key at all. -/
def fieldsHasKey (fields : List (String × JValue)) (k : String) : Bool :=
  fields.any (fun p => p.1 == k)

/-- The last binding of a key in a source list, if any. -/
def lastVal (fields : List (String × JValue)) (k : String) : Option JValue :=
  match fields.reverse.find? (fun p => p.1 == k) with
  | some p => some p.2
  | none => none

/-! ## Data model of the action scripts -/

/-- Secrets of the execution context (all optional strings). -/
structure Secrets where
  BEARER_AUTH_TOKEN : Option String := none
  BASIC_USERNAME : Option String := none
  BASIC_PASSWORD : Option String := none
  OAUTH2_AUTHORIZATION_CODE_ACCESS_TOKEN : Option String := none
  OAUTH2_CLIENT_CREDENTIALS_CLIENT_SECRET : Option String := none

/-- Environment variables of the execution context. -/
structure Environment where
  ADDRESS : Option String := none
  OAUTH2_CLIENT_CREDENTIALS_TOKEN_URL : Option String := none
  OAUTH2_CLIENT_CREDENTIALS_CLIENT_ID : Option String := none
  OAUTH2_CLIENT_CREDENTIALS_SCOPE : Option String := none
  OAUTH2_CLIENT_CREDENTIALS_AUDIENCE : Option String := none
  OAUTH2_CLIENT_CREDENTIALS_AUTH_STYLE : Option String := none

/-- Execution context passed to invoke. -/
structure Context where
  environment : Environment := {}
  secrets : Secrets := {}

/-- Job input parameters. Each field is an optional string: a missing,
null or undefined parameter is none, a supplied string is some. -/
structure Params where
  email : Option String := none
  login : Option String := none
  firstName : Option String := none
  lastName : Option String := none
  department : Option String := none
  employeeNumber : Option String := none
  groupIds : Option String := none
  additionalProfileAttributes : Option String := none
  address : Option String := none
  oktaDomain : Option String := none

/-- Parameter access by key name, as params[k] does in assertRequired. -/
def Params.get (p : Params) (k : String) : Option String :=
  match k with
  | "email" => p.email
  | "login" => p.login
  | "firstName" => p.firstName
  | "lastName" => p.lastName
  | "department" => p.department
  | "employeeNumber" => p.employeeNumber
  | "groupIds" => p.groupIds
  | "additionalProfileAttributes" => p.additionalProfileAttributes
  | "address" => p.address
  | "oktaDomain" => p.oktaDomain
  | _ => none

/-- A thrown JS Error with the extra fields the scripts attach. -/
structure ErrObj where
  message : String
  statusCode : Option Nat := none
  body : Option JValue := none

/-- An HTTP response as the scripts observe it: ok flag, numeric status,
and the result of awaiting response.json() (which may itself fail). -/
structure HttpResponse where
  ok : Bool
  status : Nat
  jsonBody : Except String JValue

/-- The JSON body of the user-creation POST. groupIds is present in the
body exactly when the script put a non-empty array there. -/
structure RequestBody where
  profile : List (String × JValue)
  groupIds : Option (List String)

/-- A record of one outbound network call. -/
inductive HttpCall where
  | get (url : String)
  | post (url : String) (body : RequestBody)
  | tokenRequest (url : String)

/-- Whether a call is the user-creation POST. -/
def HttpCall.isPost : HttpCall → Bool
  | .post _ _ => true
  | _ => false

/-- A trace containing no user-creation POST. -/
def noCreateCall (calls : List HttpCall) : Prop := ∀ c ∈ calls, c.isPost = false

/-- External JS runtime facilities used by the scripts, as oracles. -/
structure JsRuntime where
  jsonParse : String → Except String JValue
  btoa : String → String
  encodeURIComponent : String → String
  oauthToken : Except String String

/-- Responses the network would deliver to the two fetches of the action. -/
structure FetchWorld where
  getUserResponse : HttpResponse
  createUserResponse : HttpResponse

/-- Headers object built by createAuthHeaders. -/
structure Headers where
  authorization : String
  accept : String
  contentType : String

/-- Normalized output object built by buildUserResponse. -/
structure ActionResult where
  id : JValue
  status : JValue
  created : JValue
  activated : JValue
  statusChanged : JValue
  lastLogin : JValue
  lastUpdated : JValue
  profile : JValue
  groupIds : List String

/-! ## Shared utility functions (bundled @sgnl-actions/utils) -/

/-- Embedding of getAuthorizationHeader: try the four credential
strategies in fixed order. The OAuth2 client-credentials token fetch is
the oracle oauthToken; issuing it is recorded as a tokenRequest call.
The inner revalidation of getClientCredentialsToken never fires because
the outer branch already checked its three arguments for truthiness. -/
def getAuthorizationHeader (ctx : Context) (rt : JsRuntime) :
    Except ErrObj String × List HttpCall :=
  if jsTruthy ctx.secrets.BEARER_AUTH_TOKEN then
    (.ok (if jsStartsWith (ctx.secrets.BEARER_AUTH_TOKEN.getD "") "Bearer "
          then ctx.secrets.BEARER_AUTH_TOKEN.getD ""
          else "Bearer " ++ ctx.secrets.BEARER_AUTH_TOKEN.getD ""), [])
  else if jsTruthy ctx.secrets.BASIC_PASSWORD && jsTruthy ctx.secrets.BASIC_USERNAME then
    (.ok ("Basic " ++ rt.btoa (ctx.secrets.BASIC_USERNAME.getD "" ++ ":" ++
      ctx.secrets.BASIC_PASSWORD.getD "")), [])
  else if jsTruthy ctx.secrets.OAUTH2_AUTHORIZATION_CODE_ACCESS_TOKEN then
    (.ok (if jsStartsWith (ctx.secrets.OAUTH2_AUTHORIZATION_CODE_ACCESS_TOKEN.getD "") "Bearer "
          then ctx.secrets.OAUTH2_AUTHORIZATION_CODE_ACCESS_TOKEN.getD ""
          else "Bearer " ++ ctx.secrets.OAUTH2_AUTHORIZATION_CODE_ACCESS_TOKEN.getD ""), [])
  else if jsTruthy ctx.secrets.OAUTH2_CLIENT_CREDENTIALS_CLIENT_SECRET then
    if !jsTruthy ctx.environment.OAUTH2_CLIENT_CREDENTIALS_TOKEN_URL
        || !jsTruthy ctx.environment.OAUTH2_CLIENT_CREDENTIALS_CLIENT_ID then
      (.error { message := "OAuth2 Client Credentials flow requires TOKEN_URL and CLIENT_ID in env" }, [])
    else
      match rt.oauthToken with
      | .ok t => (.ok ("Bearer " ++ t),
          [.tokenRequest (ctx.environment.OAUTH2_CLIENT_CREDENTIALS_TOKEN_URL.getD "")])
      | .error m => (.error { message := m },
          [.tokenRequest (ctx.environment.OAUTH2_CLIENT_CREDENTIALS_TOKEN_URL.getD "")])
  else
    (.error { message := "No authentication configured. Provide one of: BEARER_AUTH_TOKEN, BASIC_USERNAME/BASIC_PASSWORD, OAUTH2_AUTHORIZATION_CODE_ACCESS_TOKEN, or OAUTH2_CLIENT_CREDENTIALS_*" }, [])

/-- Embedding of getBaseURL: params.address, falling back to ADDRESS, with
one trailing slash stripped. -/
def getBaseURL (params : Params) (ctx : Context) : Except ErrObj String :=
  let address := if jsTruthy params.address then params.address else ctx.environment.ADDRESS
  if jsTruthy address then
    let a := address.getD ""
    .ok (if jsEndsWith a "/" then jsDropLastChar a else a)
  else
    .error { message := "No URL specified. Provide address parameter or ADDRESS environment variable" }

/-- Embedding of createAuthHeaders. -/
def createAuthHeaders (ctx : Context) (rt : JsRuntime) :
    Except ErrObj Headers × List HttpCall :=
  match getAuthorizationHeader ctx rt with
  | (.ok h, calls) =>
    (.ok { authorization := h, accept := "application/json", contentType := "application/json" }, calls)
  | (.error e, calls) => (.error e, calls)

/-! ## The pre-check variant (current src/script.mjs, bundled in dist) -/

/-- Embedding of getOktaAuthHeader: rewrite the Bearer scheme to SSWS, but
only when the Bearer-token strategy supplied the credential. -/
def getOktaAuthHeader (ctx : Context) (rt : JsRuntime) :
    Except ErrObj Headers × List HttpCall :=
  match createAuthHeaders ctx rt with
  | (.error e, calls) => (.error e, calls)
  | (.ok headers, calls) =>
    if jsTruthy ctx.secrets.BEARER_AUTH_TOKEN
        && jsStartsWith headers.authorization "Bearer " then
      let token := jsSubstringFrom headers.authorization 7
      (.ok { headers with
              authorization := if jsStartsWith token "SSWS " then token else "SSWS " ++ token },
       calls)
    else
      (.ok headers, calls)

/-- Embedding of assertRequired: collect every falsy required key. -/
def assertRequired (params : Params) (keys : List String) : Except ErrObj Unit :=
  let missing := keys.filter (fun k => !jsTruthy (params.get k))
  if missing.length > 0 then
    .error { message := "Missing required parameter(s): " ++ String.intercalate ", " missing }
  else
    .ok ()

/-- Embedding of assertSameIdentity: compare the existing and incoming
emails after String coercion, trim and toLowerCase. -/
def assertSameIdentity (existingProfile : JValue) (params : Params) :
    Except ErrObj Unit :=
  let existingEmail := jsToLower (jsTrim (jsString (jsLookup existingProfile "email")))
  let incomingEmail := jsToLower (jsTrim (jsString (optToJValue params.email)))
  if existingEmail ≠ incomingEmail then
    .error { message := "Login already exists in the organization for a user with a different email"
           , statusCode := some 409 }
  else
    .ok ()

/-- Embedding of parseGroupIds: split on commas, trim, drop empties. -/
def parseGroupIds (groupIds : Option String) : List String :=
  if !jsTruthy groupIds then []
  else ((jsSplitComma (groupIds.getD "")).map jsTrim).filter (fun s => s != "")

/-- The object literal of createUser holding the four required fields. -/
def baseProfile (params : Params) : List (String × JValue) :=
  [("email", optToJValue params.email), ("login", optToJValue params.login),
   ("firstName", optToJValue params.firstName), ("lastName", optToJValue params.lastName)]

/-- The profile after the two truthy-guarded optional assignments of
createUser (department first, then employeeNumber). -/
def profileWithOptional (params : Params) : List (String × JValue) :=
  if jsTruthy params.employeeNumber then
    jsInsert
      (if jsTruthy params.department then
        jsInsert (baseProfile params) "department" (.str (params.department.getD ""))
      else baseProfile params)
      "employeeNumber" (.str (params.employeeNumber.getD ""))
  else
    if jsTruthy params.department then
      jsInsert (baseProfile params) "department" (.str (params.department.getD ""))
    else baseProfile params

/-- Profile-building section of createUser: the four required fields, the
two truthy-guarded optional fields, then the JSON.parse and Object.assign
of additionalProfileAttributes. -/
def buildProfile (params : Params) (rt : JsRuntime) :
    Except ErrObj (List (String × JValue)) :=
  if jsTruthy params.additionalProfileAttributes then
    match rt.jsonParse (params.additionalProfileAttributes.getD "") with
    | .ok attrs => .ok (objectAssign (profileWithOptional params) attrs)
    | .error m => .error { message := "Invalid additionalProfileAttributes JSON: " ++ m }
  else
    .ok (profileWithOptional params)

/-- Request-body assembly of the pre-check createUser: profile plus the
parsed groupIds when non-empty. -/
def buildRequestBody (params : Params) (rt : JsRuntime) : Except ErrObj RequestBody :=
  match buildProfile params rt with
  | .error e => .error e
  | .ok profile =>
    let groupIdArray := parseGroupIds params.groupIds
    .ok { profile := profile
        , groupIds := if groupIdArray.length > 0 then some groupIdArray else none }

/-- Embedding of getUser: one GET of the user-by-login endpoint. -/
def getUser (login : String) (baseUrl : String) (w : FetchWorld) (rt : JsRuntime) :
    HttpResponse × List HttpCall :=
  (w.getUserResponse, [.get (baseUrl ++ "/api/v1/users/" ++ rt.encodeURIComponent login)])

/-- Embedding of the pre-check createUser: body assembly, then the POST. -/
def createUser (params : Params) (baseUrl : String) (w : FetchWorld) (rt : JsRuntime) :
    Except ErrObj HttpResponse × List HttpCall :=
  match buildRequestBody params rt with
  | .error e => (.error e, [])
  | .ok body => (.ok w.createUserResponse, [.post (baseUrl ++ "/api/v1/users") body])

/-- Embedding of buildUserResponse. -/
def buildUserResponse (userData : JValue) (groupIds : List String) : ActionResult :=
  { id := jsLookup userData "id"
  , status := jsLookup userData "status"
  , created := jsLookup userData "created"
  , activated := jsLookup userData "activated"
  , statusChanged := jsLookup userData "statusChanged"
  , lastLogin := jsLookup userData "lastLogin"
  , lastUpdated := jsLookup userData "lastUpdated"
  , profile := jsLookup userData "profile"
  , groupIds := groupIds }

/-- Embedding of the pre-check invoke handler: validate, resolve base URL
and auth, GET the user by login, reconcile or 409 when found, create on
404, propagate any other status. The returned list is the trace of
outbound calls in order. -/
def invokePre (params : Params) (ctx : Context) (w : FetchWorld) (rt : JsRuntime) :
    Except ErrObj ActionResult × List HttpCall :=
  match assertRequired params ["email", "login", "firstName", "lastName"] with
  | .error e => (.error e, [])
  | .ok _ =>
  match getBaseURL params ctx with
  | .error e => (.error e, [])
  | .ok baseUrl =>
  match getOktaAuthHeader ctx rt with
  | (.error e, calls) => (.error e, calls)
  | (.ok _headers, calls) =>
  let login := params.login.getD ""
  let gu := getUser login baseUrl w rt
  let getUserResponse := gu.1
  let calls := calls ++ gu.2
  if getUserResponse.ok then
    match getUserResponse.jsonBody with
    | .error m => (.error { message := m }, calls)
    | .ok existingUser =>
      match assertSameIdentity (jsLookup existingUser "profile") params with
      | .error e => (.error e, calls)
      | .ok _ =>
        (.ok (buildUserResponse existingUser (parseGroupIds params.groupIds)), calls)
  else if getUserResponse.status == 404 then
    match createUser params baseUrl w rt with
    | (.error e, c2) => (.error e, calls ++ c2)
    | (.ok resp, c2) =>
      let calls := calls ++ c2
      if resp.ok then
        match resp.jsonBody with
        | .error m => (.error { message := m }, calls)
        | .ok userData =>
          (.ok (buildUserResponse userData (parseGroupIds params.groupIds)), calls)
      else
        let errorBody := match resp.jsonBody with | .ok b => some b | .error _ => none
        (.error { message := "Failed to create user: HTTP " ++ toString resp.status
                , statusCode := some resp.status
                , body := errorBody }, calls)
  else
    let errorBody := match getUserResponse.jsonBody with | .ok b => some b | .error _ => none
    (.error { message := "Failed to check if user exists: HTTP " ++ toString getUserResponse.status
            , statusCode := some getUserResponse.status
            , body := errorBody }, calls)

/-! ## The direct-create variant (older src/script.mjs in the corpus) -/

/-- Request-body assembly of the direct-create createUser: same profile
building, but the comma split of groupIds is inlined behind a truthiness
guard. -/
def buildRequestBodySimple (params : Params) (rt : JsRuntime) : Except ErrObj RequestBody :=
  match buildProfile params rt with
  | .error e => .error e
  | .ok profile =>
    if jsTruthy params.groupIds then
      let groupIdArray :=
        ((jsSplitComma (params.groupIds.getD "")).map jsTrim).filter (fun s => s != "")
      .ok { profile := profile
          , groupIds := if groupIdArray.length > 0 then some groupIdArray else none }
    else
      .ok { profile := profile, groupIds := none }

/-- Embedding of the direct-create createUser: body assembly, SSWS header
normalization of the raw token, then the POST to the URL built from the
Okta domain. -/
def createUserSimple (params : Params) (oktaDomain : String) (authToken : String)
    (w : FetchWorld) (rt : JsRuntime) : Except ErrObj HttpResponse × List HttpCall :=
  match buildRequestBodySimple params rt with
  | .error e => (.error e, [])
  | .ok body =>
    let _authHeader := if jsStartsWith authToken "SSWS " then authToken else "SSWS " ++ authToken
    (.ok w.createUserResponse, [.post ("https://" ++ oktaDomain ++ "/api/v1/users") body])

/-- Embedding of the direct-create invoke handler: sequential truthiness
checks, the single POST, then either normalization of the created user or
an error carrying the status code, with the message upgraded to the
errorSummary of a parsed JSON error body when one is present. -/
def invokeSimple (params : Params) (ctx : Context) (w : FetchWorld) (rt : JsRuntime) :
    Except ErrObj ActionResult × List HttpCall :=
  if !jsTruthy params.email then
    (.error { message := "Invalid or missing email parameter" }, [])
  else if !jsTruthy params.login then
    (.error { message := "Invalid or missing login parameter" }, [])
  else if !jsTruthy params.firstName then
    (.error { message := "Invalid or missing firstName parameter" }, [])
  else if !jsTruthy params.lastName then
    (.error { message := "Invalid or missing lastName parameter" }, [])
  else if !jsTruthy params.oktaDomain then
    (.error { message := "Invalid or missing oktaDomain parameter" }, [])
  else if !jsTruthy ctx.secrets.BEARER_AUTH_TOKEN then
    (.error { message := "Missing required secret: BEARER_AUTH_TOKEN" }, [])
  else
    match createUserSimple params (params.oktaDomain.getD "")
        (ctx.secrets.BEARER_AUTH_TOKEN.getD "") w rt with
    | (.error e, calls) => (.error e, calls)
    | (.ok resp, calls) =>
      if resp.ok then
        match resp.jsonBody with
        | .error m => (.error { message := m }, calls)
        | .ok userData =>
          let assignedGroupIds :=
            if jsTruthy params.groupIds then
              ((jsSplitComma (params.groupIds.getD "")).map jsTrim).filter (fun s => s != "")
            else []
          (.ok (buildUserResponse userData assignedGroupIds), calls)
      else
        let statusCode := resp.status
        let errorMessage :=
          match resp.jsonBody with
          | .ok errorBody =>
            if jsTruthyJ (jsLookup errorBody "errorSummary") then
              "Failed to create user: " ++ jsString (jsLookup errorBody "errorSummary")
            else
              "Failed to create user: HTTP " ++ toString statusCode
          | .error _ => "Failed to create user: HTTP " ++ toString statusCode
        (.error { message := errorMessage, statusCode := some statusCode }, calls)

/-! ## Concrete fixtures used by witnesses and counterexamples -/

/-- A concrete runtime: JSON.parse fails on the literal "not json" with a
parser message and succeeds on a small object literal, btoa and
encodeURIComponent are identities on the inputs used, and no OAuth2
network is available. -/
def wRT : JsRuntime :=
  { jsonParse := fun s =>
      if s = "not json" then .error "Unexpected token"
      else .ok (.obj [("email", .str "override@x.com"), ("mobilePhone", .str "555-1234")])
  , btoa := fun s => s
  , encodeURIComponent := fun s => s
  , oauthToken := .error "network unavailable" }

/-- A context configured with the Bearer-token strategy. -/
def wCtx : Context := { secrets := { BEARER_AUTH_TOKEN := some "tok" } }

/-- Valid required parameters with an address. -/
def wParams : Params :=
  { email := some "a@x.com", login := some "a@x.com", firstName := some "A"
  , lastName := some "B", address := some "https://example.okta.com" }

/-- A GET response reporting that the user does not exist. -/
def wGet404 : HttpResponse := { ok := false, status := 404, jsonBody := .error "no body" }

/-- An Okta error body carrying an errorSummary field. -/
def wErrBody : JValue :=
  .obj [("errorCode", .str "E0000001"), ("errorSummary", .str "Api validation failed: email")]

/-- A failing POST response with a parseable JSON error body. -/
def wPost400 : HttpResponse := { ok := false, status := 400, jsonBody := .ok wErrBody }

/-- A provider user as returned by a successful create or lookup. -/
def wUser : JValue :=
  .obj [("id", .str "user123"), ("status", .str "ACTIVE"),
        ("created", .str "2024-01-15T10:00:00.000Z"),
        ("activated", .str "2024-01-15T10:00:00.000Z"),
        ("statusChanged", .str "2024-01-15T10:00:00.000Z"),
        ("lastLogin", .null),
        ("lastUpdated", .str "2024-01-15T10:00:00.000Z"),
        ("profile", .obj [("email", .str "a@x.com"), ("login", .str "a@x.com"),
                          ("firstName", .str "A"), ("lastName", .str "B")])]

/-- A successful POST response echoing the created user. -/
def wPostOk : HttpResponse := { ok := true, status := 200, jsonBody := .ok wUser }

/-- A successful GET response delivering an existing user. -/
def wGetOk : HttpResponse := { ok := true, status := 200, jsonBody := .ok wUser }

/-- World where the user does not exist and creation fails with 400. -/
def wWorldCreateFail : FetchWorld := { getUserResponse := wGet404, createUserResponse := wPost400 }

/-- World where the user does not exist and creation succeeds. -/
def wWorldCreateOk : FetchWorld := { getUserResponse := wGet404, createUserResponse := wPostOk }

/-- World where the user already exists. -/
def wWorldFound : FetchWorld := { getUserResponse := wGetOk, createUserResponse := wPostOk }

/-- Valid required parameters carrying a messy groupIds string. -/
def wParamsG : Params :=
  { email := some "a@x.com", login := some "a@x.com", firstName := some "A"
  , lastName := some "B", address := some "https://example.okta.com"
  , groupIds := some "  a , b,, c  ," }

/-- The request body the pre-check createUser builds from wParamsG. -/
def wBodyG : RequestBody :=
  { profile := [("email", .str "a@x.com"), ("login", .str "a@x.com"),
                ("firstName", .str "A"), ("lastName", .str "B")]
  , groupIds := some ["a", "b", "c"] }

/-- Parameters with lastName missing. -/
def wParamsMissing : Params :=
  { email := some "a@x.com", login := some "a@x.com", firstName := some "A"
  , address := some "https://example.okta.com" }

/-- Parameters whose email differs from the existing user in wUser. -/
def wParamsDiff : Params :=
  { email := some "different@x.com", login := some "a@x.com", firstName := some "A"
  , lastName := some "B", address := some "https://example.okta.com" }

/-- The headers getOktaAuthHeader resolves from wCtx. -/
def wHdrs : Headers :=
  { authorization := "SSWS tok", accept := "application/json"
  , contentType := "application/json" }

/-- An existing profile without any email binding. -/
def wProfileNoEmail : JValue := .obj [("firstName", .str "A")]

/-- Parameters whose email trims and case-folds to the text undefined. -/
def wParamsUndef : Params :=
  { email := some " Undefined ", login := some "a@x.com", firstName := some "A"
  , lastName := some "B", address := some "https://example.okta.com" }

/-- A context using the OAuth2 authorization-code strategy. -/
def wCtxOAuth : Context :=
  { secrets := { OAUTH2_AUTHORIZATION_CODE_ACCESS_TOKEN := some "abc" } }

/-- A context whose Bearer secret is already prefixed. -/
def wCtxBearerPre : Context := { secrets := { BEARER_AUTH_TOKEN := some "Bearer xyz" } }

/-- The headers createAuthHeaders resolves from wCtx before the SSWS
rewrite. -/
def wHdrsBearer : Headers :=
  { authorization := "Bearer tok", accept := "application/json"
  , contentType := "application/json" }

/-- Valid required parameters plus an extension-attribute string that the
runtime wRT parses to an object overriding email. -/
def wParamsExtra : Params :=
  { wParams with additionalProfileAttributes := some "extra-attrs" }

/-- The bindings wRT parses out of the wParamsExtra extension string. -/
def wExtraFields : List (String × JValue) :=
  [("email", .str "override@x.com"), ("mobilePhone", .str "555-1234")]

/-- Valid required parameters plus an extension-attribute string that is
not valid JSON. -/
def wParamsBadAttrs : Params :=
  { wParams with additionalProfileAttributes := some "not json" }

/-- Valid parameters for the direct-create variant (Okta domain form). -/
def wParamsSimple : Params :=
  { email := some "a@x.com", login := some "a@x.com", firstName := some "A"
  , lastName := some "B", oktaDomain := some "example.okta.com" }

/-- wParamsSimple with the invalid extension-attribute string. -/
def wParamsSimpleBad : Params :=
  { wParamsSimple with additionalProfileAttributes := some "not json" }

/-! ## Lemmas about the string primitives -/

theorem dropWhile_dropWhile (p : Char → Bool) (l : List Char) :
    (l.dropWhile p).dropWhile p = l.dropWhile p := by
  induction l with
  | nil => rfl
  | cons a l ih =>
    by_cases h : p a
    · simpa [List.dropWhile_cons, h] using ih
    · simp [List.dropWhile_cons, h]

theorem dropWhile_head_false (p : Char → Bool) (l : List Char) (x : Char) (xs : List Char)
    (h : l.dropWhile p = x :: xs) : p x = false := by
  induction l with
  | nil => simp at h
  | cons a l ih =>
    by_cases ha : p a
    · exact ih (by simpa [List.dropWhile_cons, ha] using h)
    · rw [List.dropWhile_cons, if_neg (by simpa using ha)] at h
      cases h
      simpa using ha

theorem dropWhile_append_last (p : Char → Bool) (x : Char) (hx : p x = false) :
    ∀ ys : List Char, (ys ++ [x]).dropWhile p = ys.dropWhile p ++ [x] := by
  intro ys
  induction ys with
  | nil => simp [List.dropWhile_cons, hx]
  | cons a ys ih =>
    by_cases ha : p a
    · simpa [List.dropWhile_cons, ha] using ih
    · simp [List.dropWhile_cons, ha]

theorem dropWhile_trimChars (l : List Char) :
    (trimChars l).dropWhile jsWhitespaceChar = trimChars l := by
  unfold trimChars
  rcases hd : l.dropWhile jsWhitespaceChar with _ | ⟨x, xs⟩
  · simp
  · have hx : jsWhitespaceChar x = false := dropWhile_head_false _ _ _ _ hd
    rw [List.reverse_cons, dropWhile_append_last _ _ hx, List.reverse_append]
    simp [List.dropWhile_cons, hx]

theorem trimChars_idem (l : List Char) : trimChars (trimChars l) = trimChars l := by
  conv_lhs => rw [trimChars, dropWhile_trimChars]
  conv_lhs => rw [trimChars, List.reverse_reverse, dropWhile_dropWhile]
  rfl

theorem mem_trimChars (l : List Char) (c : Char) (h : c ∈ trimChars l) : c ∈ l := by
  unfold trimChars at h
  rw [List.mem_reverse] at h
  have h1 := (List.dropWhile_sublist _).mem h
  rw [List.mem_reverse] at h1
  exact (List.dropWhile_sublist _).mem h1

theorem splitCommaChars_ne_nil (l : List Char) : splitCommaChars l ≠ [] := by
  induction l with
  | nil => simp [splitCommaChars]
  | cons c cs ih =>
    rw [splitCommaChars]
    by_cases h : c = ','
    · simp [h]
    · rw [if_neg h]
      rcases hs : splitCommaChars cs with _ | ⟨t, ts⟩
      · simp
      · simp

theorem mem_splitCommaChars_no_comma (l : List Char) (t : List Char)
    (h : t ∈ splitCommaChars l) : ',' ∉ t := by
  induction l generalizing t with
  | nil =>
    rw [splitCommaChars, List.mem_singleton] at h
    simp [h]
  | cons c cs ih =>
    rw [splitCommaChars] at h
    by_cases hc : c = ','
    · rw [if_pos hc] at h
      rcases List.mem_cons.mp h with h1 | h1
      · simp [h1]
      · exact ih t h1
    · rw [if_neg hc] at h
      rcases hs : splitCommaChars cs with _ | ⟨t', ts⟩
      · exact absurd hs (splitCommaChars_ne_nil cs)
      · rw [hs] at h
        rcases List.mem_cons.mp h with h1 | h1
        · subst h1
          have ht' : ',' ∉ t' := ih t' (by rw [hs]; exact List.mem_cons_self ..)
          intro hmem
          rcases List.mem_cons.mp hmem with h2 | h2
          · exact hc h2.symm
          · exact ht' h2
        · exact ih t (by rw [hs]; exact List.mem_cons_of_mem _ h1)

theorem splitCommaChars_no_comma (t : List Char) (h : ',' ∉ t) :
    splitCommaChars t = [t] := by
  induction t with
  | nil => rfl
  | cons c cs ih =>
    have hc : ¬c = ',' := fun he => h (by rw [he]; exact List.mem_cons_self ..)
    have hcs : ',' ∉ cs := fun hm => h (List.mem_cons_of_mem _ hm)
    rw [splitCommaChars, if_neg hc, ih hcs]

theorem splitCommaChars_append_comma (t rest : List Char) (h : ',' ∉ t) :
    splitCommaChars (t ++ ',' :: rest) = t :: splitCommaChars rest := by
  induction t with
  | nil =>
    simp [splitCommaChars]
  | cons c cs ih =>
    have hc : ¬c = ',' := fun he => h (by rw [he]; exact List.mem_cons_self ..)
    have hcs : ',' ∉ cs := fun hm => h (List.mem_cons_of_mem _ hm)
    rw [List.cons_append, splitCommaChars, if_neg hc, ih hcs]

theorem splitCommaChars_joinCommaChars (ts : List (List Char)) (hne : ts ≠ [])
    (hfree : ∀ t ∈ ts, ',' ∉ t) :
    splitCommaChars (joinCommaChars ts) = ts := by
  induction ts with
  | nil => exact absurd rfl hne
  | cons t ts ih =>
    rcases ts with _ | ⟨t', ts'⟩
    · rw [joinCommaChars]
      exact splitCommaChars_no_comma t (hfree t (List.mem_cons_self ..))
    · rw [joinCommaChars,
        splitCommaChars_append_comma _ _ (hfree t (List.mem_cons_self ..)),
        ih (by simp) (fun u hu => hfree u (List.mem_cons_of_mem _ hu))]

theorem jsTrim_idem (s : String) : jsTrim (jsTrim s) = jsTrim s := by
  show (⟨trimChars (trimChars s.data)⟩ : String) = ⟨trimChars s.data⟩
  rw [trimChars_idem]

theorem string_ne_empty_iff (l : List Char) : (⟨l⟩ : String) ≠ "" ↔ l ≠ [] := by
  constructor
  · intro h he
    exact h (by rw [he])
  · intro h he
    exact h (congrArg String.data he)

theorem parseGroupIds_some (s : String) (hs : s ≠ "") :
    parseGroupIds (some s) =
      ((jsSplitComma s).map jsTrim).filter (fun t => t != "") := by
  unfold parseGroupIds
  rw [if_neg]
  · rfl
  · simp [jsTruthy, hs]

theorem mem_parse_tokens (s : String) (t : String) (h : t ∈ parseGroupIds (some s)) :
    jsTrim t = t ∧ t ≠ "" ∧ ',' ∉ t.data := by
  by_cases hs : s = ""
  · subst hs
    simp [parseGroupIds, jsTruthy] at h
  · rw [parseGroupIds_some s hs] at h
    obtain ⟨hmem, hne⟩ := List.mem_filter.mp h
    obtain ⟨u, hu, hut⟩ := List.mem_map.mp hmem
    obtain ⟨chunk, hchunk, huc⟩ := List.mem_map.mp hu
    have hdata : t.data = trimChars chunk := by
      rw [← hut, ← huc]
      rfl
    refine ⟨?_, by simpa using hne, ?_⟩
    · show (⟨trimChars t.data⟩ : String) = t
      rw [hdata, trimChars_idem, ← hdata]
    · intro hc
      rw [hdata] at hc
      exact mem_splitCommaChars_no_comma s.data chunk hchunk (mem_trimChars chunk ',' hc)

theorem parse_of_tokens (ts : List String) (hne : ts ≠ [])
    (htrim : ∀ t ∈ ts, jsTrim t = t) (hempty : ∀ t ∈ ts, t ≠ "")
    (hfree : ∀ t ∈ ts, ',' ∉ t.data) :
    parseGroupIds (some (jsJoinComma ts)) = ts := by
  have hJ : (jsJoinComma ts).data = joinCommaChars (ts.map String.data) := rfl
  have hJne : (jsJoinComma ts).data ≠ [] := by
    rw [hJ]
    rcases ts with _ | ⟨t0, ts'⟩
    · exact absurd rfl hne
    · have h0 : t0.data ≠ [] := by
        intro h0
        exact hempty t0 (List.mem_cons_self ..) (by
          have : t0 = (⟨t0.data⟩ : String) := rfl
          rw [this, h0])
      rcases ts' with _ | ⟨t1, ts''⟩
      · simpa [joinCommaChars] using h0
      · simp [joinCommaChars]
  have hsne : jsJoinComma ts ≠ "" := by
    have : jsJoinComma ts = (⟨(jsJoinComma ts).data⟩ : String) := rfl
    rw [this]
    exact (string_ne_empty_iff _).mpr hJne
  rw [parseGroupIds_some _ hsne]
  have hsplit : splitCommaChars (jsJoinComma ts).data = ts.map String.data := by
    rw [hJ]
    refine splitCommaChars_joinCommaChars _ (by simpa using hne) ?_
    intro d hd
    obtain ⟨t, ht, rfl⟩ := List.mem_map.mp hd
    exact hfree t ht
  have hchunks : jsSplitComma (jsJoinComma ts) = ts := by
    unfold jsSplitComma
    rw [hsplit, List.map_map]
    conv_rhs => rw [← List.map_id ts]
    exact List.map_congr_left (fun t _ => rfl)
  rw [hchunks]
  have hmap : ts.map jsTrim = ts := by
    conv_rhs => rw [← List.map_id ts]
    exact List.map_congr_left htrim
  rw [hmap]
  exact List.filter_eq_self.mpr (fun t ht => by simpa using hempty t ht)

/-! ## Claim C8 and C9: groupIds parsing -/

/-- C8: groupIds parsing splits on commas, trims each token and discards
empty tokens, preserving the order of the remaining tokens and keeping
duplicates (the result is an order-preserving selection from the trimmed
comma chunks); the sample input "  a , b,, c  ," parses to a, b, c; and the
parsed list enters the create request body exactly when it is non-empty. -/
theorem parseGroupIds_spec :
    parseGroupIds (some "  a , b,, c  ,") = ["a", "b", "c"] ∧
    (∀ s : String, List.Sublist (parseGroupIds (some s)) ((jsSplitComma s).map jsTrim)) ∧
    (∀ s t, t ∈ parseGroupIds (some s) → t ≠ "") ∧
    (∀ params rt body, buildRequestBody params rt = Except.ok body →
      body.groupIds = if parseGroupIds params.groupIds = [] then none
        else some (parseGroupIds params.groupIds)) := by
  refine ⟨by decide, ?_, ?_, ?_⟩
  · intro s
    by_cases hs : s = ""
    · subst hs
      exact List.nil_sublist _
    · rw [parseGroupIds_some s hs]
      exact List.filter_sublist _
  · intro s t ht
    exact (mem_parse_tokens s t ht).2.1
  · intro params rt body h
    rcases hb : buildProfile params rt with e | profile
    · rw [buildRequestBody, hb] at h
      cases h
    · rw [buildRequestBody, hb] at h
      cases h
      rcases hl : parseGroupIds params.groupIds with _ | ⟨g, gs⟩
      · simp [hl]
      · simp [hl]

/-- Witness for C8 at concrete inputs: the token b of the sample parse is
non-empty, and the body built from wParamsG carries exactly the parsed
list. -/
theorem parseGroupIds_spec_witness :
    ("b" ∈ parseGroupIds (some "  a , b,, c  ,")) ∧ "b" ≠ "" ∧
    buildRequestBody wParamsG wRT = Except.ok wBodyG ∧
    wBodyG.groupIds = (if parseGroupIds wParamsG.groupIds = [] then none
      else some (parseGroupIds wParamsG.groupIds)) :=
  ⟨by decide, parseGroupIds_spec.2.2.1 "  a , b,, c  ," "b" (by decide), rfl,
   parseGroupIds_spec.2.2.2 wParamsG wRT wBodyG rfl⟩

/-- C9: groupIds parsing is idempotent under re-parsing its own output:
for every input string, parsing the comma-join of the parsed list yields
the parsed list again. -/
theorem parseGroupIds_join_idempotent (s : String) :
    parseGroupIds (some (jsJoinComma (parseGroupIds (some s)))) = parseGroupIds (some s) := by
  rcases hts : parseGroupIds (some s) with _ | ⟨t0, ts'⟩
  · rfl
  · refine parse_of_tokens (t0 :: ts') (by simp) ?_ ?_ ?_
    · intro t ht
      exact (mem_parse_tokens s t (by rw [hts]; exact ht)).1
    · intro t ht
      exact (mem_parse_tokens s t (by rw [hts]; exact ht)).2.1
    · intro t ht
      exact (mem_parse_tokens s t (by rw [hts]; exact ht)).2.2

/-! ## Claim C4: required-parameter validation -/

theorem paramsGet_email (p : Params) : p.get "email" = p.email := rfl

theorem paramsGet_login (p : Params) : p.get "login" = p.login := rfl

theorem paramsGet_firstName (p : Params) : p.get "firstName" = p.firstName := rfl

theorem paramsGet_lastName (p : Params) : p.get "lastName" = p.lastName := rfl

theorem assertRequired_ok (p : Params)
    (hE : jsTruthy p.email = true) (hL : jsTruthy p.login = true)
    (hF : jsTruthy p.firstName = true) (hLa : jsTruthy p.lastName = true) :
    assertRequired p ["email", "login", "firstName", "lastName"] = .ok () := by
  unfold assertRequired
  simp [List.filter_cons, paramsGet_email, paramsGet_login, paramsGet_firstName,
    paramsGet_lastName, hE, hL, hF, hLa]

/-- C4: when any required key among email, login, firstName, lastName is
absent, null, undefined or the empty string, invoke fails with one error
whose message lists every missing key joined by commas, and the trace of
outbound HTTP calls is empty. -/
theorem invokePre_missing_required (params : Params) (ctx : Context)
    (w : FetchWorld) (rt : JsRuntime)
    (h : ∃ k ∈ ["email", "login", "firstName", "lastName"],
      jsTruthy (params.get k) = false) :
    invokePre params ctx w rt =
      (.error { message := "Missing required parameter(s): " ++
          String.intercalate ", " ((["email", "login", "firstName", "lastName"]).filter
            (fun k => !jsTruthy (params.get k))) }, []) ∧
    (∀ k, k ∈ ["email", "login", "firstName", "lastName"] →
      jsTruthy (params.get k) = false →
      k ∈ (["email", "login", "firstName", "lastName"]).filter
        (fun k => !jsTruthy (params.get k))) := by
  constructor
  · have hne : (["email", "login", "firstName", "lastName"]).filter
        (fun k => !jsTruthy (params.get k)) ≠ [] := by
      obtain ⟨k, hk, hfk⟩ := h
      intro hnil
      have hmem : k ∈ (["email", "login", "firstName", "lastName"]).filter
          (fun k => !jsTruthy (params.get k)) :=
        List.mem_filter.mpr ⟨hk, by simp [hfk]⟩
      rw [hnil] at hmem
      exact absurd hmem (List.not_mem_nil k)
    have hal : assertRequired params ["email", "login", "firstName", "lastName"] =
        .error { message := "Missing required parameter(s): " ++
          String.intercalate ", " ((["email", "login", "firstName", "lastName"]).filter
            (fun k => !jsTruthy (params.get k))) } := by
      unfold assertRequired
      rw [if_pos (List.length_pos.mpr hne)]
    simp only [invokePre, hal]
  · intro k hk hfk
    exact List.mem_filter.mpr ⟨hk, by simp [hfk]⟩

/-- Witness for C4: with lastName absent, invoke rejects listing lastName
and issues no network call. -/
theorem invokePre_missing_required_witness :
    (∃ k ∈ ["email", "login", "firstName", "lastName"],
      jsTruthy (wParamsMissing.get k) = false) ∧
    invokePre wParamsMissing wCtx wWorldCreateOk wRT =
      (.error { message := "Missing required parameter(s): lastName" }, []) :=
  ⟨⟨"lastName", by decide, rfl⟩,
   (invokePre_missing_required wParamsMissing wCtx wWorldCreateOk wRT
     ⟨"lastName", by decide, rfl⟩).1⟩

/-! ## Claim C1: pre-check reconciliation and the 409 conflict -/

theorem getAuthorizationHeader_no_post (ctx : Context) (rt : JsRuntime) :
    noCreateCall (getAuthorizationHeader ctx rt).2 := by
  unfold getAuthorizationHeader noCreateCall
  intro c hc
  rcases ho : rt.oauthToken with t | m <;>
    simp only [ho, apply_ite Prod.snd] at hc <;>
    split_ifs at hc <;>
    simp_all [HttpCall.isPost]

theorem createAuthHeaders_calls (ctx : Context) (rt : JsRuntime) :
    (createAuthHeaders ctx rt).2 = (getAuthorizationHeader ctx rt).2 := by
  unfold createAuthHeaders
  rcases h : getAuthorizationHeader ctx rt with ⟨r, calls⟩
  cases r <;> rfl

theorem getOktaAuthHeader_calls (ctx : Context) (rt : JsRuntime) :
    (getOktaAuthHeader ctx rt).2 = (createAuthHeaders ctx rt).2 := by
  unfold getOktaAuthHeader
  split <;> rename_i heq <;> rw [heq]
  split <;> rfl

theorem auth_no_post (ctx : Context) (rt : JsRuntime) :
    noCreateCall (getOktaAuthHeader ctx rt).2 := by
  rw [getOktaAuthHeader_calls, createAuthHeaders_calls]
  exact getAuthorizationHeader_no_post ctx rt

theorem noCreateCall_append_get (xs : List HttpCall) (url : String)
    (h : noCreateCall xs) : noCreateCall (xs ++ [.get url]) := by
  intro c hc
  rcases List.mem_append.mp hc with h1 | h1
  · exact h c h1
  · rw [List.mem_singleton.mp h1]
    rfl

/-- C1: in the pre-check invoke, when the lookup by login succeeds and
delivers a user, the existing and requested emails are compared after
String coercion, trim and lower-casing: when equal, invoke returns the
existing user and the trace holds no creation POST; when not equal, invoke
fails with statusCode 409 and a message that the login exists under a
different email, and the trace again holds no creation POST. -/
theorem invokePre_found_reconcile_or_conflict (params : Params) (ctx : Context)
    (w : FetchWorld) (rt : JsRuntime) (u : JValue)
    (hE : jsTruthy params.email = true) (hL : jsTruthy params.login = true)
    (hF : jsTruthy params.firstName = true) (hLa : jsTruthy params.lastName = true)
    (baseUrl : String) (hBase : getBaseURL params ctx = .ok baseUrl)
    (hdrs : Headers) (authCalls : List HttpCall)
    (hAuth : getOktaAuthHeader ctx rt = (.ok hdrs, authCalls))
    (hok : w.getUserResponse.ok = true)
    (hbody : w.getUserResponse.jsonBody = .ok u) :
    (jsToLower (jsTrim (jsString (jsLookup (jsLookup u "profile") "email"))) =
        jsToLower (jsTrim (jsString (optToJValue params.email))) →
      invokePre params ctx w rt =
        (.ok (buildUserResponse u (parseGroupIds params.groupIds)),
         authCalls ++ [.get (baseUrl ++ "/api/v1/users/" ++
           rt.encodeURIComponent (params.login.getD ""))])) ∧
    (jsToLower (jsTrim (jsString (jsLookup (jsLookup u "profile") "email"))) ≠
        jsToLower (jsTrim (jsString (optToJValue params.email))) →
      invokePre params ctx w rt =
        (.error { message := "Login already exists in the organization for a user with a different email"
                , statusCode := some 409, body := none },
         authCalls ++ [.get (baseUrl ++ "/api/v1/users/" ++
           rt.encodeURIComponent (params.login.getD ""))])) ∧
    noCreateCall (authCalls ++ [.get (baseUrl ++ "/api/v1/users/" ++
      rt.encodeURIComponent (params.login.getD ""))]) := by
  have hAR := assertRequired_ok params hE hL hF hLa
  have hNP : noCreateCall (authCalls ++ [.get (baseUrl ++ "/api/v1/users/" ++
      rt.encodeURIComponent (params.login.getD ""))]) := by
    refine noCreateCall_append_get _ _ ?_
    have := auth_no_post ctx rt
    rw [hAuth] at this
    exact this
  refine ⟨?_, ?_, hNP⟩
  · intro heq
    have hid : assertSameIdentity (jsLookup u "profile") params = .ok () := by
      unfold assertSameIdentity
      rw [if_neg (by simpa using heq)]
    simp only [invokePre, hAR, hBase, hAuth, getUser, hok, hbody, hid, if_true]
  · intro hne
    have hid : assertSameIdentity (jsLookup u "profile") params =
        .error { message := "Login already exists in the organization for a user with a different email"
               , statusCode := some 409, body := none } := by
      unfold assertSameIdentity
      rw [if_pos (by simpa using hne)]
    simp only [invokePre, hAR, hBase, hAuth, getUser, hok, hbody, hid, if_true]

/-- Witness for C1, both branches at concrete inputs: with the matching
email the existing user is returned; with a different email invoke fails
with 409. -/
theorem invokePre_found_reconcile_or_conflict_witness :
    (invokePre wParams wCtx wWorldFound wRT =
      (.ok (buildUserResponse wUser (parseGroupIds wParams.groupIds)),
       [.get "https://example.okta.com/api/v1/users/a@x.com"])) ∧
    (invokePre wParamsDiff wCtx wWorldFound wRT =
      (.error { message := "Login already exists in the organization for a user with a different email"
              , statusCode := some 409, body := none },
       [.get "https://example.okta.com/api/v1/users/a@x.com"])) :=
  ⟨(invokePre_found_reconcile_or_conflict wParams wCtx wWorldFound wRT wUser
      rfl rfl rfl rfl "https://example.okta.com" rfl wHdrs [] rfl rfl rfl).1 rfl,
   (invokePre_found_reconcile_or_conflict wParamsDiff wCtx wWorldFound wRT wUser
      rfl rfl rfl rfl "https://example.okta.com" rfl wHdrs [] rfl rfl rfl).2.1
      (by decide)⟩

/-! ## Claim C10: identity check against a profile without an email -/

/-- C10: assertSameIdentity coerces a missing existing email with the
String constructor, so the comparison is made against the literal text
undefined: a requested email that trims and case-folds to that text is
reconciled, and any other requested email raises the 409 conflict. -/
theorem assertSameIdentity_undefined_email (profile : JValue) (params : Params)
    (e : String)
    (hprof : jsLookup profile "email" = .undefined)
    (hemail : params.email = some e) :
    (jsToLower (jsTrim e) = "undefined" →
      assertSameIdentity profile params = .ok ()) ∧
    (jsToLower (jsTrim e) ≠ "undefined" →
      assertSameIdentity profile params =
        .error { message := "Login already exists in the organization for a user with a different email"
               , statusCode := some 409, body := none }) := by
  constructor <;> intro h <;> unfold assertSameIdentity <;> rw [hprof, hemail] <;>
    simp only [jsString, optToJValue]
  · rw [if_neg (show ¬jsToLower (jsTrim "undefined") ≠ jsToLower (jsTrim e) from
      fun hne => hne h.symm)]
  · rw [if_pos (show jsToLower (jsTrim "undefined") ≠ jsToLower (jsTrim e) from
      fun heq => h heq.symm)]

/-- Witness for C10: a profile with no email reconciles with the
requested email " Undefined " and conflicts with a@x.com. -/
theorem assertSameIdentity_undefined_email_witness :
    jsLookup wProfileNoEmail "email" = .undefined ∧
    assertSameIdentity wProfileNoEmail wParamsUndef = .ok () ∧
    assertSameIdentity wProfileNoEmail wParams =
      .error { message := "Login already exists in the organization for a user with a different email"
             , statusCode := some 409, body := none } :=
  ⟨rfl,
   (assertSameIdentity_undefined_email wProfileNoEmail wParamsUndef " Undefined "
      rfl rfl).1 rfl,
   (assertSameIdentity_undefined_email wProfileNoEmail wParams "a@x.com"
      rfl rfl).2 (by decide)⟩

/-! ## Claim C2: the SSWS rewrite of the auth resolver -/

theorem listStartsWith_append (a b c : List Char) :
    listStartsWith (a ++ b) (a ++ c) = listStartsWith b c := by
  induction a with
  | nil => rfl
  | cons x a ih => simp [listStartsWith, ih]

theorem jsStartsWith_ssws_append (t : String) :
    jsStartsWith ("SSWS " ++ t) "SSWS SSWS " = jsStartsWith t "SSWS " := by
  show listStartsWith ("SSWS ".data ++ t.data) ("SSWS ".data ++ "SSWS ".data) =
    listStartsWith t.data "SSWS ".data
  rw [listStartsWith_append]

theorem jsStartsWith_bearer_append (s : String) :
    jsStartsWith ("Bearer " ++ s) "Bearer Bearer " = jsStartsWith s "Bearer " := by
  show listStartsWith ("Bearer ".data ++ s.data) ("Bearer ".data ++ "Bearer ".data) =
    listStartsWith s.data "Bearer ".data
  rw [listStartsWith_append]

theorem startsWith_bearer_ne_empty (s : String) (h : jsStartsWith s "Bearer " = true) :
    s ≠ "" := by
  intro he
  subst he
  exact absurd h (by decide)

theorem getOktaAuthHeader_ok (ctx : Context) (rt : JsRuntime) (hdrs : Headers)
    (calls : List HttpCall) (hCA : createAuthHeaders ctx rt = (.ok hdrs, calls)) :
    getOktaAuthHeader ctx rt =
      (if jsTruthy ctx.secrets.BEARER_AUTH_TOKEN
          && jsStartsWith hdrs.authorization "Bearer " then
        (.ok { hdrs with authorization :=
            if jsStartsWith (jsSubstringFrom hdrs.authorization 7) "SSWS " = true
            then jsSubstringFrom hdrs.authorization 7
            else "SSWS " ++ jsSubstringFrom hdrs.authorization 7 }, calls)
      else (.ok hdrs, calls)) := by
  unfold getOktaAuthHeader
  rw [hCA]

/-- C2: the auth resolver rewrites the Bearer scheme to SSWS only when
the Bearer-token strategy supplied the credential; the rewrite first
strips the Bearer prefix (seven characters), does not add SSWS when the
remaining token already starts with it, and so never introduces a doubled
SSWS prefix; and resolving a secret already prefixed Bearer returns it
unchanged, never producing a doubled Bearer prefix. -/
theorem auth_ssws_rewrite_spec :
    (∀ ctx rt, jsTruthy ctx.secrets.BEARER_AUTH_TOKEN = false →
      getOktaAuthHeader ctx rt = createAuthHeaders ctx rt) ∧
    (∀ ctx rt hdrs calls,
      createAuthHeaders ctx rt = (.ok hdrs, calls) →
      jsTruthy ctx.secrets.BEARER_AUTH_TOKEN = true →
      jsStartsWith hdrs.authorization "Bearer " = true →
      ∃ auth2,
        getOktaAuthHeader ctx rt = (.ok { hdrs with authorization := auth2 }, calls) ∧
        (jsStartsWith (jsSubstringFrom hdrs.authorization 7) "SSWS " = false →
          auth2 = "SSWS " ++ jsSubstringFrom hdrs.authorization 7) ∧
        (jsStartsWith (jsSubstringFrom hdrs.authorization 7) "SSWS " = true →
          auth2 = jsSubstringFrom hdrs.authorization 7) ∧
        (jsStartsWith (jsSubstringFrom hdrs.authorization 7) "SSWS SSWS " = false →
          jsStartsWith auth2 "SSWS SSWS " = false)) ∧
    (∀ ctx rt s, ctx.secrets.BEARER_AUTH_TOKEN = some s →
      jsStartsWith s "Bearer " = true →
      (getAuthorizationHeader ctx rt).1 = .ok s) ∧
    (∀ ctx rt s, ctx.secrets.BEARER_AUTH_TOKEN = some s → s ≠ "" →
      jsStartsWith s "Bearer " = false →
      (getAuthorizationHeader ctx rt).1 = .ok ("Bearer " ++ s) ∧
      jsStartsWith ("Bearer " ++ s) "Bearer Bearer " = false) := by
  refine ⟨?_, ?_, ?_, ?_⟩
  · intro ctx rt hB
    unfold getOktaAuthHeader
    split <;> rename_i heq <;> rw [heq]
    rw [if_neg (by simp [hB])]
  · intro ctx rt hdrs calls hCA hB hS
    rw [getOktaAuthHeader_ok ctx rt hdrs calls hCA, if_pos (by simp [hB, hS])]
    by_cases ht : jsStartsWith (jsSubstringFrom hdrs.authorization 7) "SSWS " = true
    · exact ⟨jsSubstringFrom hdrs.authorization 7,
        by rw [if_pos ht], by simp [ht], fun _ => rfl, fun hf => hf⟩
    · have ht' : jsStartsWith (jsSubstringFrom hdrs.authorization 7) "SSWS " = false := by
        simpa using ht
      refine ⟨"SSWS " ++ jsSubstringFrom hdrs.authorization 7,
        by rw [if_neg ht], fun _ => rfl, by simp [ht'], fun _ => ?_⟩
      rw [jsStartsWith_ssws_append]
      exact ht'
  · intro ctx rt s hSec hS
    unfold getAuthorizationHeader
    rw [hSec, if_pos (by simp [jsTruthy, startsWith_bearer_ne_empty s hS])]
    simp only [Option.getD_some]
    rw [if_pos hS]
  · intro ctx rt s hSec hne hS
    constructor
    · unfold getAuthorizationHeader
      rw [hSec, if_pos (by simp [jsTruthy, hne])]
      simp only [Option.getD_some]
      rw [if_neg (by simp [hS])]
    · rw [jsStartsWith_bearer_append]
      exact hS

/-- Witness for C2 at concrete inputs: an OAuth2-derived bearer header is
left untouched, the Bearer-token header of wCtx is rewritten, a secret
already prefixed Bearer resolves to itself, and an unprefixed secret
gains exactly one Bearer prefix. -/
theorem auth_ssws_rewrite_spec_witness :
    (getOktaAuthHeader wCtxOAuth wRT = createAuthHeaders wCtxOAuth wRT) ∧
    (∃ auth2,
      getOktaAuthHeader wCtx wRT = (.ok { wHdrsBearer with authorization := auth2 }, []) ∧
      (jsStartsWith (jsSubstringFrom wHdrsBearer.authorization 7) "SSWS " = false →
        auth2 = "SSWS " ++ jsSubstringFrom wHdrsBearer.authorization 7) ∧
      (jsStartsWith (jsSubstringFrom wHdrsBearer.authorization 7) "SSWS " = true →
        auth2 = jsSubstringFrom wHdrsBearer.authorization 7) ∧
      (jsStartsWith (jsSubstringFrom wHdrsBearer.authorization 7) "SSWS SSWS " = false →
        jsStartsWith auth2 "SSWS SSWS " = false)) ∧
    ((getAuthorizationHeader wCtxBearerPre wRT).1 = .ok "Bearer xyz") ∧
    ((getAuthorizationHeader wCtx wRT).1 = .ok ("Bearer " ++ "tok") ∧
      jsStartsWith ("Bearer " ++ "tok") "Bearer Bearer " = false) :=
  ⟨auth_ssws_rewrite_spec.1 wCtxOAuth wRT rfl,
   auth_ssws_rewrite_spec.2.1 wCtx wRT wHdrsBearer [] rfl rfl rfl,
   auth_ssws_rewrite_spec.2.2.1 wCtxBearerPre wRT "Bearer xyz" rfl rfl,
   auth_ssws_rewrite_spec.2.2.2 wCtx wRT "tok" rfl (by decide) rfl⟩

/-! ## Claim C6: profile building and the extension merge -/

theorem fieldsLookup_cons (x : String) (y : JValue) (t : List (String × JValue))
    (q : String) :
    fieldsLookup ((x, y) :: t) q = if x == q then some y else fieldsLookup t q := by
  cases h : (x == q) with
  | false =>
    rw [fieldsLookup, List.find?_cons_of_neg _ (by simpa using h), if_neg (by simp [h])]
    rfl
  | true =>
    rw [fieldsLookup, List.find?_cons_of_pos _ (by simpa using h), if_pos (by simp)]

theorem fieldsLookup_map_replace (k q : String) (v : JValue)
    (t : List (String × JValue)) :
    fieldsLookup (t.map (fun p => if p.1 == k then (p.1, v) else p)) q =
      if q = k then (fieldsLookup t k).map (fun _ => v) else fieldsLookup t q := by
  induction t with
  | nil => by_cases h : q = k <;> simp [fieldsLookup, h]
  | cons a t ih =>
    rcases a with ⟨x, y⟩
    have hb : ((if (x, y).1 == k then ((x, y).1, v) else (x, y))) =
        (x, if x == k then v else y) := by
      by_cases hxk : (x == k) = true <;> simp [hxk]
    rw [List.map_cons, hb, fieldsLookup_cons, fieldsLookup_cons, fieldsLookup_cons, ih]
    by_cases hxk : (x == k) = true <;> by_cases hxq : (x == q) = true <;>
      by_cases hqk : q = k <;> simp_all [beq_iff_eq]

theorem fieldsLookup_jsInsert (t : List (String × JValue)) (k q : String) (v : JValue) :
    fieldsLookup (jsInsert t k v) q = if q = k then some v else fieldsLookup t q := by
  unfold jsInsert
  by_cases hk : t.any (fun p => p.1 == k) = true
  · rw [if_pos hk, fieldsLookup_map_replace]
    by_cases hqk : q = k
    · subst hqk
      rw [if_pos rfl, if_pos rfl]
      obtain ⟨p, hp, hpk⟩ := List.any_eq_true.mp hk
      rcases hfind : t.find? (fun p => p.1 == q) with _ | p'
      · rw [List.find?_eq_none] at hfind
        exact absurd hpk (by simpa using hfind p hp)
      · unfold fieldsLookup
        rw [hfind]
        rfl
    · rw [if_neg hqk, if_neg hqk]
  · rw [if_neg hk]
    unfold fieldsLookup
    rw [List.find?_append]
    have hnone : t.find? (fun p => p.1 == k) = none := by
      rw [List.find?_eq_none]
      intro p hp hpk
      exact absurd (List.any_eq_true.mpr ⟨p, hp, hpk⟩) hk
    by_cases hqk : q = k
    · subst hqk
      rw [hnone]
      simp [List.find?_cons]
    · have hkq : (k == q) = false := by
        rcases hkq : (k == q) with _ | _
        · rfl
        · exact absurd ((beq_iff_eq ..).mp hkq).symm hqk
      rw [show ([(k, v)] : List (String × JValue)).find? (fun p => p.1 == q) = none from by
        simp [List.find?_cons, hkq]]
      rw [Option.or_none, if_neg hqk]

theorem fieldsLookup_jsAssignFields (fs : List (String × JValue))
    (t : List (String × JValue)) (q : String) :
    fieldsLookup (jsAssignFields t fs) q =
      match lastVal fs q with
      | some v => some v
      | none => fieldsLookup t q := by
  induction fs generalizing t with
  | nil => rfl
  | cons kv fs ih =>
    rcases kv with ⟨k, v⟩
    show fieldsLookup (jsAssignFields (jsInsert t k v) fs) q = _
    rw [ih]
    have hlv : lastVal ((k, v) :: fs) q =
        match lastVal fs q with
        | some w => some w
        | none => if q = k then some v else none := by
      unfold lastVal
      rw [List.reverse_cons, List.find?_append]
      rcases hf : fs.reverse.find? (fun p => p.1 == q) with _ | p
      · rw [hf, Option.none_or]
        by_cases hkq : (k == q) = true
        · rw [show ([(k, v)] : List (String × JValue)).find? (fun p => p.1 == q) =
              some (k, v) from by simp [List.find?_cons, hkq]]
          rw [if_pos ((beq_iff_eq ..).mp hkq).symm]
        · rw [show ([(k, v)] : List (String × JValue)).find? (fun p => p.1 == q) =
              none from by simp [List.find?_cons, hkq]]
          rw [if_neg (fun hq => by simp [hq] at hkq)]
      · rw [hf]
        rfl
    rw [hlv, fieldsLookup_jsInsert]
    rcases lastVal fs q with _ | w
    · by_cases hqk : q = k <;> simp [hqk]
    · rfl

/-- C6: the built profile carries the four required fields verbatim;
department and employeeNumber appear exactly when truthy and are then the
given strings (omitted keys are absent, not null); and a successfully
parsed extension object is merged with last-write-wins precedence, so a
late extension binding of any key, the required four included, decides
the final lookup. -/
theorem buildProfile_spec :
    (∀ params rt, jsTruthy params.additionalProfileAttributes = false →
      ∃ P, buildProfile params rt = .ok P ∧
        fieldsLookup P "email" = some (optToJValue params.email) ∧
        fieldsLookup P "login" = some (optToJValue params.login) ∧
        fieldsLookup P "firstName" = some (optToJValue params.firstName) ∧
        fieldsLookup P "lastName" = some (optToJValue params.lastName) ∧
        fieldsHasKey P "department" = jsTruthy params.department ∧
        fieldsHasKey P "employeeNumber" = jsTruthy params.employeeNumber ∧
        (jsTruthy params.department = true →
          fieldsLookup P "department" = some (.str (params.department.getD ""))) ∧
        (jsTruthy params.employeeNumber = true →
          fieldsLookup P "employeeNumber" = some (.str (params.employeeNumber.getD "")))) ∧
    (∀ params rt a fs, params.additionalProfileAttributes = some a →
      jsTruthy params.additionalProfileAttributes = true →
      rt.jsonParse a = .ok (.obj fs) →
      buildProfile params rt = .ok (jsAssignFields (profileWithOptional params) fs) ∧
      (∀ q, fieldsLookup (jsAssignFields (profileWithOptional params) fs) q =
        match lastVal fs q with
        | some v => some v
        | none => fieldsLookup (profileWithOptional params) q) ∧
      fieldsLookup (profileWithOptional params) "email" = some (optToJValue params.email) ∧
      fieldsLookup (profileWithOptional params) "login" = some (optToJValue params.login) ∧
      fieldsLookup (profileWithOptional params) "firstName" =
        some (optToJValue params.firstName) ∧
      fieldsLookup (profileWithOptional params) "lastName" =
        some (optToJValue params.lastName)) := by
  have base4 : ∀ params : Params,
      fieldsLookup (profileWithOptional params) "email" = some (optToJValue params.email) ∧
      fieldsLookup (profileWithOptional params) "login" = some (optToJValue params.login) ∧
      fieldsLookup (profileWithOptional params) "firstName" =
        some (optToJValue params.firstName) ∧
      fieldsLookup (profileWithOptional params) "lastName" =
        some (optToJValue params.lastName) := by
    intro params
    unfold profileWithOptional
    by_cases hd : jsTruthy params.department = true <;>
      by_cases hem : jsTruthy params.employeeNumber = true <;>
      simp only [hd, hem, if_true, if_false, Bool.false_eq_true] <;>
      exact ⟨rfl, rfl, rfl, rfl⟩
  constructor
  · intro params rt hAttrs
    refine ⟨profileWithOptional params, ?_, (base4 params).1, (base4 params).2.1,
      (base4 params).2.2.1, (base4 params).2.2.2, ?_, ?_, ?_, ?_⟩
    · unfold buildProfile
      rw [if_neg (by simp [hAttrs])]
    · unfold profileWithOptional
      by_cases hd : jsTruthy params.department = true <;>
        by_cases hem : jsTruthy params.employeeNumber = true <;>
        simp only [hd, hem, if_true, if_false, Bool.false_eq_true] <;>
        rfl
    · unfold profileWithOptional
      by_cases hd : jsTruthy params.department = true <;>
        by_cases hem : jsTruthy params.employeeNumber = true <;>
        simp only [hd, hem, if_true, if_false, Bool.false_eq_true] <;>
        rfl
    · intro hd
      unfold profileWithOptional
      by_cases hem : jsTruthy params.employeeNumber = true <;>
        simp only [hd, hem, if_true, if_false, Bool.false_eq_true] <;>
        rfl
    · intro hem
      unfold profileWithOptional
      by_cases hd : jsTruthy params.department = true <;>
        simp only [hd, hem, if_true, if_false, Bool.false_eq_true] <;>
        rfl
  · intro params rt a fs hA hTruthy hParse
    refine ⟨?_, fun q => fieldsLookup_jsAssignFields fs (profileWithOptional params) q,
      (base4 params).1, (base4 params).2.1, (base4 params).2.2.1, (base4 params).2.2.2⟩
    unfold buildProfile
    rw [if_pos (by simp [hTruthy]), hA, Option.getD_some, hParse]
    rfl

/-- Witness for C6: wParams without extras yields the four plain fields
and no optional keys, while the extension object of wParamsExtra
overrides email with last-write-wins. -/
theorem buildProfile_spec_witness :
    (∃ P, buildProfile wParams wRT = .ok P ∧
        fieldsLookup P "email" = some (optToJValue wParams.email) ∧
        fieldsLookup P "login" = some (optToJValue wParams.login) ∧
        fieldsLookup P "firstName" = some (optToJValue wParams.firstName) ∧
        fieldsLookup P "lastName" = some (optToJValue wParams.lastName) ∧
        fieldsHasKey P "department" = jsTruthy wParams.department ∧
        fieldsHasKey P "employeeNumber" = jsTruthy wParams.employeeNumber ∧
        (jsTruthy wParams.department = true →
          fieldsLookup P "department" = some (.str (wParams.department.getD ""))) ∧
        (jsTruthy wParams.employeeNumber = true →
          fieldsLookup P "employeeNumber" = some (.str (wParams.employeeNumber.getD "")))) ∧
    buildProfile wParamsExtra wRT =
      .ok (jsAssignFields (profileWithOptional wParamsExtra) wExtraFields) ∧
    fieldsLookup (jsAssignFields (profileWithOptional wParamsExtra) wExtraFields) "email" =
      some (.str "override@x.com") :=
  ⟨buildProfile_spec.1 wParams wRT rfl,
   (buildProfile_spec.2 wParamsExtra wRT "extra-attrs" wExtraFields rfl rfl rfl).1,
   by
    rw [(buildProfile_spec.2 wParamsExtra wRT "extra-attrs" wExtraFields rfl rfl rfl).2.1
      "email"]
    rfl⟩

/-! ## Claim C7: shape of every successful result -/

theorem createUser_ok_resp (params : Params) (baseUrl : String) (w : FetchWorld)
    (rt : JsRuntime) (resp : HttpResponse) (c2 : List HttpCall)
    (h : createUser params baseUrl w rt = (.ok resp, c2)) :
    resp = w.createUserResponse := by
  unfold createUser at h
  rcases hb : buildRequestBody params rt with e | body <;> rw [hb] at h
  · simp at h
  · simp only [Prod.mk.injEq, Except.ok.injEq] at h
    exact h.1.symm

/-- C7: every successful result of the pre-check invoke is the normalized
form of a provider-delivered user (from the lookup or from the create
call): its profile is that user's echoed profile and its groupIds is the
parse of the requested groupIds input, the empty list when no input was
given, regardless of the response body. -/
theorem invokePre_success_result (params : Params) (ctx : Context) (w : FetchWorld)
    (rt : JsRuntime) (result : ActionResult) (calls : List HttpCall)
    (h : invokePre params ctx w rt = (.ok result, calls)) :
    result.groupIds = parseGroupIds params.groupIds ∧
    (params.groupIds = none → result.groupIds = []) ∧
    ∃ u, (w.getUserResponse.jsonBody = Except.ok u ∨
          w.createUserResponse.jsonBody = Except.ok u) ∧
      result = buildUserResponse u (parseGroupIds params.groupIds) ∧
      result.profile = jsLookup u "profile" := by
  have main : ∃ u, (w.getUserResponse.jsonBody = Except.ok u ∨
      w.createUserResponse.jsonBody = Except.ok u) ∧
      result = buildUserResponse u (parseGroupIds params.groupIds) := by
    simp only [invokePre, getUser] at h
    rcases hAR : assertRequired params ["email", "login", "firstName", "lastName"] with e | u0
    · rw [hAR] at h
      simp at h
    · rw [hAR] at h
      rcases hB : getBaseURL params ctx with e | baseUrl
      · rw [hB] at h
        simp at h
      · rw [hB] at h
        rcases hAuth : getOktaAuthHeader ctx rt with ⟨r, authCalls⟩
        rw [hAuth] at h
        cases r with
        | error e => simp at h
        | ok hdrs =>
          dsimp only at h
          by_cases hok : w.getUserResponse.ok = true
          · rw [if_pos hok] at h
            rcases hJ : w.getUserResponse.jsonBody with m | u
            · rw [hJ] at h
              simp at h
            · rw [hJ] at h
              dsimp only at h
              rcases hId : assertSameIdentity (jsLookup u "profile") params with e | u1
              · rw [hId] at h
                simp at h
              · rw [hId] at h
                have hres : buildUserResponse u (parseGroupIds params.groupIds) = result := by
                  have h1 := congrArg Prod.fst h
                  simpa using h1
                exact ⟨u, Or.inl rfl, hres.symm⟩
          · rw [if_neg hok] at h
            by_cases h404 : (w.getUserResponse.status == 404) = true
            · rw [if_pos h404] at h
              rcases hCU : createUser params baseUrl w rt with ⟨rc, c2⟩
              rw [hCU] at h
              cases rc with
              | error e => simp at h
              | ok resp =>
                dsimp only at h
                have hresp : resp = w.createUserResponse :=
                  createUser_ok_resp params baseUrl w rt resp c2 hCU
                by_cases hrok : resp.ok = true
                · rw [if_pos hrok] at h
                  rcases hJ2 : resp.jsonBody with m | userData
                  · rw [hJ2] at h
                    simp at h
                  · rw [hJ2] at h
                    dsimp only at h
                    have hres : buildUserResponse userData (parseGroupIds params.groupIds) =
                        result := by
                      have h1 := congrArg Prod.fst h
                      simpa using h1
                    refine ⟨userData, Or.inr ?_, hres.symm⟩
                    rw [← hresp]
                    exact hJ2
                · rw [if_neg hrok] at h
                  simp at h
            · rw [if_neg h404] at h
              simp at h
  obtain ⟨u, hu, hres⟩ := main
  refine ⟨by rw [hres]; rfl, fun hg => by rw [hres, hg]; rfl, u, hu, hres, by rw [hres]; rfl⟩

/-- Witness for C7: a successful create run returns groupIds equal to the
empty parse of the absent input and the profile echoed in wUser. -/
theorem invokePre_success_result_witness :
    invokePre wParams wCtx wWorldCreateOk wRT =
      (.ok (buildUserResponse wUser []), [.get "https://example.okta.com/api/v1/users/a@x.com",
        .post "https://example.okta.com/api/v1/users"
          { profile := [("email", .str "a@x.com"), ("login", .str "a@x.com"),
                        ("firstName", .str "A"), ("lastName", .str "B")]
          , groupIds := none }]) ∧
    (buildUserResponse wUser [] : ActionResult).groupIds = parseGroupIds wParams.groupIds ∧
    (wParams.groupIds = none → (buildUserResponse wUser [] : ActionResult).groupIds = []) ∧
    ∃ u, (wWorldCreateOk.getUserResponse.jsonBody = Except.ok u ∨
          wWorldCreateOk.createUserResponse.jsonBody = Except.ok u) ∧
      (buildUserResponse wUser [] : ActionResult) =
        buildUserResponse u (parseGroupIds wParams.groupIds) ∧
      (buildUserResponse wUser [] : ActionResult).profile = jsLookup u "profile" :=
  ⟨rfl, invokePre_success_result wParams wCtx wWorldCreateOk wRT
    (buildUserResponse wUser []) _ rfl⟩

/-! ## Claim C3: error propagation of the create call -/

/-- Counterexample to C3 as stated: in the pre-check invoke a failing
create with a parseable body carrying errorSummary still throws the
generic HTTP message; the summary is never used as the message, only
attached through the body field. -/
theorem createError_summary_unused_counterexample :
    (invokePre wParams wCtx wWorldCreateFail wRT).1 =
      .error { message := "Failed to create user: HTTP 400", statusCode := some 400
             , body := some wErrBody } ∧
    jsTruthyJ (jsLookup wErrBody "errorSummary") = true ∧
    "Failed to create user: HTTP 400" ≠
      "Failed to create user: " ++ jsString (jsLookup wErrBody "errorSummary") :=
  ⟨rfl, rfl, by decide⟩

/-- C3 as amended: for every non-success create response both variants
throw an error whose statusCode is the numeric response status unchanged;
the pre-check invoke always uses the generic HTTP message and attaches
the parsed JSON body (or nothing, when unparseable) as the error body,
while the direct-create invoke uses the errorSummary field of a parsed
body as the message and falls back to the generic HTTP message
otherwise. -/
theorem create_error_statusCode_spec :
    (∀ (params : Params) (ctx : Context) (w : FetchWorld) (rt : JsRuntime)
      (baseUrl : String) (hdrs : Headers) (authCalls : List HttpCall)
      (body : RequestBody),
      jsTruthy params.email = true → jsTruthy params.login = true →
      jsTruthy params.firstName = true → jsTruthy params.lastName = true →
      getBaseURL params ctx = .ok baseUrl →
      getOktaAuthHeader ctx rt = (.ok hdrs, authCalls) →
      w.getUserResponse.ok = false →
      (w.getUserResponse.status == 404) = true →
      buildRequestBody params rt = .ok body →
      w.createUserResponse.ok = false →
      ∃ errBody trace,
        invokePre params ctx w rt =
          (.error { message := "Failed to create user: HTTP " ++
                      toString w.createUserResponse.status
                  , statusCode := some w.createUserResponse.status
                  , body := errBody }, trace) ∧
        (∀ b, w.createUserResponse.jsonBody = .ok b → errBody = some b) ∧
        (∀ m, w.createUserResponse.jsonBody = .error m → errBody = none)) ∧
    (∀ (params : Params) (ctx : Context) (w : FetchWorld) (rt : JsRuntime)
      (body : RequestBody),
      jsTruthy params.email = true → jsTruthy params.login = true →
      jsTruthy params.firstName = true → jsTruthy params.lastName = true →
      jsTruthy params.oktaDomain = true →
      jsTruthy ctx.secrets.BEARER_AUTH_TOKEN = true →
      buildRequestBodySimple params rt = .ok body →
      w.createUserResponse.ok = false →
      ∃ msg trace,
        invokeSimple params ctx w rt =
          (.error { message := msg
                  , statusCode := some w.createUserResponse.status
                  , body := none }, trace) ∧
        (∀ b, w.createUserResponse.jsonBody = .ok b →
          jsTruthyJ (jsLookup b "errorSummary") = true →
          msg = "Failed to create user: " ++ jsString (jsLookup b "errorSummary")) ∧
        (∀ b, w.createUserResponse.jsonBody = .ok b →
          jsTruthyJ (jsLookup b "errorSummary") = false →
          msg = "Failed to create user: HTTP " ++ toString w.createUserResponse.status) ∧
        (∀ m, w.createUserResponse.jsonBody = .error m →
          msg = "Failed to create user: HTTP " ++ toString w.createUserResponse.status)) := by
  constructor
  · intro params ctx w rt baseUrl hdrs authCalls body hE hL hF hLa hBase hAuth hok h404 hRB hCok
    have hAR := assertRequired_ok params hE hL hF hLa
    have hCU : createUser params baseUrl w rt =
        (.ok w.createUserResponse, [.post (baseUrl ++ "/api/v1/users") body]) := by
      unfold createUser
      rw [hRB]
    refine ⟨match w.createUserResponse.jsonBody with
            | .ok b => some b
            | .error _ => none,
          authCalls ++ [.get (baseUrl ++ "/api/v1/users/" ++
            rt.encodeURIComponent (params.login.getD ""))] ++
            [.post (baseUrl ++ "/api/v1/users") body], ?_, ?_, ?_⟩
    · simp only [invokePre, hAR, hBase, hAuth, getUser, hok, Bool.false_eq_true, if_false,
        h404, if_true, hCU, hCok]
    · intro b hb
      rw [hb]
    · intro m hm
      rw [hm]
  · intro params ctx w rt body hE hL hF hLa hD hBearer hRB hCok
    have hCU : createUserSimple params (params.oktaDomain.getD "")
        (ctx.secrets.BEARER_AUTH_TOKEN.getD "") w rt =
        (.ok w.createUserResponse,
         [.post ("https://" ++ params.oktaDomain.getD "" ++ "/api/v1/users") body]) := by
      unfold createUserSimple
      rw [hRB]
    refine ⟨match w.createUserResponse.jsonBody with
            | .ok errorBody =>
              if jsTruthyJ (jsLookup errorBody "errorSummary") then
                "Failed to create user: " ++ jsString (jsLookup errorBody "errorSummary")
              else "Failed to create user: HTTP " ++ toString w.createUserResponse.status
            | .error _ =>
              "Failed to create user: HTTP " ++ toString w.createUserResponse.status,
          [.post ("https://" ++ params.oktaDomain.getD "" ++ "/api/v1/users") body],
          ?_, ?_, ?_, ?_⟩
    · simp only [invokeSimple, hE, hL, hF, hLa, hD, hBearer, Bool.not_true,
        Bool.false_eq_true, if_false, hCU, hCok, if_true]
    · intro b hb hsum
      rw [hb]
      simp [hsum]
    · intro b hb hsum
      rw [hb]
      simp [hsum]
    · intro m hm
      rw [hm]

/-- Witness for the amended C3 at concrete inputs, covering both
variants: the pre-check run attaches the body and keeps status 400 with
the generic message, and the direct-create run uses the summary. -/
theorem create_error_statusCode_spec_witness :
    (∃ errBody trace,
      invokePre wParams wCtx wWorldCreateFail wRT =
        (.error { message := "Failed to create user: HTTP " ++
                    toString wWorldCreateFail.createUserResponse.status
                , statusCode := some wWorldCreateFail.createUserResponse.status
                , body := errBody }, trace) ∧
      (∀ b, wWorldCreateFail.createUserResponse.jsonBody = .ok b → errBody = some b) ∧
      (∀ m, wWorldCreateFail.createUserResponse.jsonBody = .error m → errBody = none)) ∧
    (∃ msg trace,
      invokeSimple wParamsSimple wCtx wWorldCreateFail wRT =
        (.error { message := msg
                , statusCode := some wWorldCreateFail.createUserResponse.status
                , body := none }, trace) ∧
      (∀ b, wWorldCreateFail.createUserResponse.jsonBody = .ok b →
        jsTruthyJ (jsLookup b "errorSummary") = true →
        msg = "Failed to create user: " ++ jsString (jsLookup b "errorSummary")) ∧
      (∀ b, wWorldCreateFail.createUserResponse.jsonBody = .ok b →
        jsTruthyJ (jsLookup b "errorSummary") = false →
        msg = "Failed to create user: HTTP " ++
          toString wWorldCreateFail.createUserResponse.status) ∧
      (∀ m, wWorldCreateFail.createUserResponse.jsonBody = .error m →
        msg = "Failed to create user: HTTP " ++
          toString wWorldCreateFail.createUserResponse.status)) :=
  ⟨create_error_statusCode_spec.1 wParams wCtx wWorldCreateFail wRT
      "https://example.okta.com" wHdrs []
      { profile := [("email", .str "a@x.com"), ("login", .str "a@x.com"),
                    ("firstName", .str "A"), ("lastName", .str "B")]
      , groupIds := none }
      rfl rfl rfl rfl rfl rfl rfl rfl rfl rfl,
   create_error_statusCode_spec.2 wParamsSimple wCtx wWorldCreateFail wRT
      { profile := [("email", .str "a@x.com"), ("login", .str "a@x.com"),
                    ("firstName", .str "A"), ("lastName", .str "B")]
      , groupIds := none }
      rfl rfl rfl rfl rfl rfl rfl rfl⟩

/-! ## Claim C5: invalid additionalProfileAttributes JSON -/

/-- Counterexample to C5 as stated: in the pre-check invoke the rejection
for invalid JSON happens only after the existence-check GET, so an HTTP
call has already been made before the rejection. -/
theorem invalid_attrs_get_already_sent_counterexample :
    invokePre wParamsBadAttrs wCtx wWorldCreateFail wRT =
      (.error { message := "Invalid additionalProfileAttributes JSON: Unexpected token" },
       [.get "https://example.okta.com/api/v1/users/a@x.com"]) ∧
    ([HttpCall.get "https://example.okta.com/api/v1/users/a@x.com"] : List HttpCall) ≠ [] :=
  ⟨rfl, by simp⟩

/-- C5 as amended: with an unparseable additionalProfileAttributes string
invoke rejects with a message of the form
Invalid additionalProfileAttributes JSON: followed by the parser message,
and the create POST is never issued; the direct-create invoke performs no
HTTP call at all before rejecting, while the pre-check invoke has already
issued exactly the existence-check GET. -/
theorem invalid_attrs_rejects_spec :
    (∀ (params : Params) (ctx : Context) (w : FetchWorld) (rt : JsRuntime)
      (baseUrl : String) (hdrs : Headers) (authCalls : List HttpCall) (a m : String),
      jsTruthy params.email = true → jsTruthy params.login = true →
      jsTruthy params.firstName = true → jsTruthy params.lastName = true →
      getBaseURL params ctx = .ok baseUrl →
      getOktaAuthHeader ctx rt = (.ok hdrs, authCalls) →
      w.getUserResponse.ok = false →
      (w.getUserResponse.status == 404) = true →
      params.additionalProfileAttributes = some a →
      jsTruthy params.additionalProfileAttributes = true →
      rt.jsonParse a = .error m →
      invokePre params ctx w rt =
        (.error { message := "Invalid additionalProfileAttributes JSON: " ++ m },
         authCalls ++ [.get (baseUrl ++ "/api/v1/users/" ++
           rt.encodeURIComponent (params.login.getD ""))]) ∧
      noCreateCall (authCalls ++ [.get (baseUrl ++ "/api/v1/users/" ++
        rt.encodeURIComponent (params.login.getD ""))])) ∧
    (∀ (params : Params) (ctx : Context) (w : FetchWorld) (rt : JsRuntime) (a m : String),
      jsTruthy params.email = true → jsTruthy params.login = true →
      jsTruthy params.firstName = true → jsTruthy params.lastName = true →
      jsTruthy params.oktaDomain = true →
      jsTruthy ctx.secrets.BEARER_AUTH_TOKEN = true →
      params.additionalProfileAttributes = some a →
      jsTruthy params.additionalProfileAttributes = true →
      rt.jsonParse a = .error m →
      invokeSimple params ctx w rt =
        (.error { message := "Invalid additionalProfileAttributes JSON: " ++ m }, [])) := by
  constructor
  · intro params ctx w rt baseUrl hdrs authCalls a m hE hL hF hLa hBase hAuth hok h404
      hA hTruthy hParse
    have hAR := assertRequired_ok params hE hL hF hLa
    have hBP : buildProfile params rt =
        .error { message := "Invalid additionalProfileAttributes JSON: " ++ m } := by
      unfold buildProfile
      rw [if_pos hTruthy, hA, Option.getD_some, hParse]
    have hCU : createUser params baseUrl w rt =
        (.error { message := "Invalid additionalProfileAttributes JSON: " ++ m }, []) := by
      unfold createUser buildRequestBody
      rw [hBP]
    constructor
    · simp only [invokePre, hAR, hBase, hAuth, getUser, hok, Bool.false_eq_true, if_false,
        h404, if_true, hCU, List.append_nil]
    · refine noCreateCall_append_get _ _ ?_
      have hnp := auth_no_post ctx rt
      rw [hAuth] at hnp
      exact hnp
  · intro params ctx w rt a m hE hL hF hLa hD hBearer hA hTruthy hParse
    have hBP : buildProfile params rt =
        .error { message := "Invalid additionalProfileAttributes JSON: " ++ m } := by
      unfold buildProfile
      rw [if_pos hTruthy, hA, Option.getD_some, hParse]
    have hCU : createUserSimple params (params.oktaDomain.getD "")
        (ctx.secrets.BEARER_AUTH_TOKEN.getD "") w rt =
        (.error { message := "Invalid additionalProfileAttributes JSON: " ++ m }, []) := by
      unfold createUserSimple buildRequestBodySimple
      rw [hBP]
    simp only [invokeSimple, hE, hL, hF, hLa, hD, hBearer, Bool.not_true,
      Bool.false_eq_true, if_false, hCU]

/-- Witness for the amended C5 at concrete inputs: the pre-check run has
issued only the GET, the direct-create run has issued nothing. -/
theorem invalid_attrs_rejects_spec_witness :
    (invokePre wParamsBadAttrs wCtx wWorldCreateFail wRT =
      (.error { message := "Invalid additionalProfileAttributes JSON: Unexpected token" },
       [.get "https://example.okta.com/api/v1/users/a@x.com"]) ∧
     noCreateCall [.get "https://example.okta.com/api/v1/users/a@x.com"]) ∧
    invokeSimple wParamsSimpleBad wCtx wWorldCreateFail wRT =
      (.error { message := "Invalid additionalProfileAttributes JSON: Unexpected token" }, []) :=
  ⟨invalid_attrs_rejects_spec.1 wParamsBadAttrs wCtx wWorldCreateFail wRT
      "https://example.okta.com" wHdrs [] "not json" "Unexpected token"
      rfl rfl rfl rfl rfl rfl rfl rfl rfl rfl rfl,
   invalid_attrs_rejects_spec.2 wParamsSimpleBad wCtx wWorldCreateFail wRT
      "not json" "Unexpected token" rfl rfl rfl rfl rfl rfl rfl rfl rfl⟩

end OktaVerify
